import Mathlib

/-!
# JobFinder — verification of the discovery-and-apply pipeline

Shallow embedding of the data layer and the job-automation services of the
JobFinder repository (`server/src/data/managers/*.py`,
`server/src/services/job_automation/**.py`), together with theorems settling
the specification claims about them.

Modelling conventions:
* Database rows become Lean structures; the relational store becomes a
  `Store` structure holding lists of rows.  SQL queries become list
  traversals matching the query predicates.
* Python `ValueError` raising becomes `Except String`; a raised error leaves
  the store unchanged (no commit happens on the raising paths in the source).
* Python truthiness on required string fields: the empty string models a
  missing/falsy value; `0` is the falsy integer.
* The live web page probed by Playwright is external nondeterminism; it is
  modelled as a `Page` structure of probe outcomes (selector visibility,
  input values, fallible probes) and, for whole-attempt behaviour of the
  form-fill convergence loop, as a per-attempt outcome oracle.
  Browser-level plumbing (event loops, coroutine scheduling, tempfile I/O)
  is abstracted away; calls into the managers are modelled by their data
  semantics.
-/

namespace JobFinder

/-! ## Data model (`server/src/data/models`) -/

/-- `JobOffer` row (`data/models/job_offer.py`): integer primary key `id`,
unique `external_id`, required `job_description` and `job_link`, optional
metadata and the `quick_apply` flag (`Optional[bool]`). -/
structure JobOffer where
  id : Nat
  external_id : String
  company_name : Option String := none
  job_title : Option String := none
  job_description : String
  job_link : String
  quick_apply : Option Bool := none
  deriving Repr, DecidableEq

/-- `Application` row (`data/models/application.py`): `(user_id, job_id)`
pair with a status string.  The table carries no uniqueness constraint on
`(user_id, job_id)`. -/
structure Application where
  id : Nat
  user_id : Nat
  job_id : Nat
  application_status : String
  deriving Repr, DecidableEq

/-- `CoverLetter` row (`data/models/cover_letter.py`), reduced to the fields
the automation pipeline reads: primary key and the `(user_id, job_id)` pair. -/
structure CoverLetter where
  id : Nat
  user_id : Nat
  job_id : Nat
  deriving Repr, DecidableEq

/-- `ApplicationForm` row (`data/models/apply_form.py`), reduced to the
`(user_id, site_name)` key used by `get_apply_form_by_user_and_site`. -/
structure ApplyForm where
  user_id : Nat
  site_name : String
  deriving Repr, DecidableEq

/-- The relational store: one list per table, plus the autoincrement
counters for the integer primary keys. -/
structure Store where
  jobOffers : List JobOffer := []
  applications : List Application := []
  coverLetters : List CoverLetter := []
  applyForms : List ApplyForm := []
  nextJobOfferId : Nat := 1
  nextApplicationId : Nat := 1
  deriving Repr, DecidableEq

/-! ## `JobOfferManager` (`data/managers/job_offer_manager.py`) -/

/-- `get_job_offer_by_external_id`: `SELECT ... WHERE external_id = ?`,
`scalar_one_or_none` (at most one row exists under the unique index;
modelled as the first match). -/
def get_job_offer_by_external_id (s : Store) (external_id : String) : Option JobOffer :=
  s.jobOffers.find? (fun o => o.external_id == external_id)

/-- `get_job_offer_by_id`: `session.get(JobOffer, id)` — primary-key lookup. -/
def get_job_offer_by_id (s : Store) (pk : Nat) : Option JobOffer :=
  s.jobOffers.find? (fun o => o.id == pk)

/-- The keyword payload accepted by `add_job_offer(**kwargs)`. -/
structure JobOfferPayload where
  external_id : String
  company_name : Option String := none
  job_title : Option String := none
  job_description : String
  job_link : String
  quick_apply : Option Bool := none
  deriving Repr, DecidableEq

/-- The required-field scan of `add_job_offer`: the first of
`external_id`, `job_description`, `job_link` whose value is falsy, in the
order the source iterates `required_fields`. -/
def firstMissingRequired (p : JobOfferPayload) : Option String :=
  if p.external_id = "" then some "external_id"
  else if p.job_description = "" then some "job_description"
  else if p.job_link = "" then some "job_link"
  else none

/-- `add_job_offer`: raises `ValueError` on a falsy required field (before
any duplicate lookup), otherwise returns the existing offer unchanged when
the `external_id` is already present, otherwise inserts a fresh row. -/
def add_job_offer (s : Store) (p : JobOfferPayload) :
    Except String (JobOffer × Store) :=
  match firstMissingRequired p with
  | some f => .error ("The field " ++ f ++ " is required.")
  | none =>
    match get_job_offer_by_external_id s p.external_id with
    | some existing => .ok (existing, s)
    | none =>
      let offer : JobOffer :=
        { id := s.nextJobOfferId
          external_id := p.external_id
          company_name := p.company_name
          job_title := p.job_title
          job_description := p.job_description
          job_link := p.job_link
          quick_apply := p.quick_apply }
      .ok (offer,
        { s with
          jobOffers := s.jobOffers ++ [offer]
          nextJobOfferId := s.nextJobOfferId + 1 })

/-- The store after an `add_job_offer` call: the new store on success, the
unchanged store when the call raised (nothing was committed). -/
def add_job_offer_run (s : Store) (p : JobOfferPayload) : Store :=
  match add_job_offer s p with
  | .ok (_, s') => s'
  | .error _ => s

/-- `get_job_offers_by_quick_apply`: `SELECT ... WHERE quick_apply == True`. -/
def get_job_offers_by_quick_apply (s : Store) : List JobOffer :=
  s.jobOffers.filter (fun o => o.quick_apply == some true)

/-- `get_id_by_external_id`: the `id` of the offer found by external id. -/
def get_id_by_external_id (s : Store) (external_id : String) : Option Nat :=
  (get_job_offer_by_external_id s external_id).map (·.id)

/-- `delete_job_offer(key)`: looks the row up **by primary key** via
`get_job_offer_by_id` and deletes it; returns `False` (store unchanged)
when no row has that `id`. -/
def delete_job_offer (s : Store) (pk : Nat) : Bool × Store :=
  match get_job_offer_by_id s pk with
  | none => (false, s)
  | some o => (true, { s with jobOffers := s.jobOffers.filter (fun x => x.id != o.id) })

/-- Decimal reading of a character list: `some` of the spelled number when
every character is a digit and the list is non-empty, else `none`. -/
def decimalKey? : List Char → Nat → Option Nat
  | [], acc => some acc
  | c :: cs, acc =>
    if c.isDigit then decimalKey? cs (acc * 10 + (c.toNat - 48))
    else none

/-- A string read as a decimal integer key (`none` when empty or holding a
non-digit). -/
def stringKeyToNat? (key : String) : Option Nat :=
  match key.toList with
  | [] => none
  | l => decimalKey? l 0

/-- `delete_job_offer` as invoked by `FormFiller.fill_apply_form`, which
passes the posting's **string `external_id`** where the primary-key `id` is
consumed.  SQLite integer affinity on the `id` column coerces a purely
numeric string to the integer it spells (matching the row with that `id`,
which is in general a different posting); a non-numeric string matches no
row. -/
def delete_job_offer_str_key (s : Store) (key : String) : Bool × Store :=
  match stringKeyToNat? key with
  | some pk => delete_job_offer s pk
  | none => (false, s)

/-! ## `ApplicationManager` (`data/managers/application_manager.py`) -/

/-- The keyword payload accepted by `add_application(**kwargs)`. -/
structure ApplicationPayload where
  user_id : Nat
  job_id : Nat
  application_status : String
  deriving Repr, DecidableEq

/-- `add_application`: raises `ValueError` on a falsy required field
(`user_id`, `job_id`, `application_status`), then inserts unconditionally —
there is **no** duplicate check against an existing `(user_id, job_id)`
row. -/
def add_application (s : Store) (p : ApplicationPayload) :
    Except String (Application × Store) :=
  if p.user_id = 0 then .error "The field 'user_id' is required."
  else if p.job_id = 0 then .error "The field 'job_id' is required."
  else if p.application_status = "" then .error "The field 'application_status' is required."
  else
    let app : Application :=
      { id := s.nextApplicationId
        user_id := p.user_id
        job_id := p.job_id
        application_status := p.application_status }
    .ok (app,
      { s with
        applications := s.applications ++ [app]
        nextApplicationId := s.nextApplicationId + 1 })

/-- `get_application_by_user_and_job`: `SELECT ... WHERE user_id = ? AND
job_id = ?`, `scalar_one_or_none` (modelled as the first match; at most one
row exists under the orchestrator's dedup discipline). -/
def get_application_by_user_and_job (s : Store) (user_id job_id : Nat) :
    Option Application :=
  s.applications.find? (fun a => a.user_id == user_id && a.job_id == job_id)

/-- Number of `Application` rows for a `(user, job)` pair. -/
def countApplications (s : Store) (user_id job_id : Nat) : Nat :=
  (s.applications.filter (fun a => a.user_id == user_id && a.job_id == job_id)).length

/-! ## `CoverLetterManager` and `ApplyFormManager` (reduced) -/

/-- `get_cover_letter_by_user_and_job_id(user, job, number=1)`: first letter
matching the pair. -/
def get_cover_letter_by_user_and_job (s : Store) (user_id job_id : Nat) :
    Option CoverLetter :=
  s.coverLetters.find? (fun c => c.user_id == user_id && c.job_id == job_id)

/-- `delete_cover_letter(cover_letter_id)`: primary-key delete, `False` if
absent. -/
def delete_cover_letter (s : Store) (pk : Nat) : Bool × Store :=
  match s.coverLetters.find? (fun c => c.id == pk) with
  | none => (false, s)
  | some c => (true, { s with coverLetters := s.coverLetters.filter (fun x => x.id != c.id) })

/-- `get_apply_form_by_user_and_site` yields a row, tested for truthiness by
`fill_apply_form`. -/
def has_apply_form (s : Store) (user_id : Nat) (site : String) : Bool :=
  s.applyForms.any (fun f => f.user_id == user_id && f.site_name == site)

/-! ## `FormChecker` (`services/job_automation/jobup/form_filler.py`)

The live form is modelled by a `Page` of probe outcomes.  Plain
`page.is_visible(selector)` probes are total reads; the selected-state
probes issued with the dropdown open (`is_visible(sel, timeout=1000)`) and
the trigger clicks may raise, which the source catches with
`except: return False`. -/

/-- Outcomes of the browser probes issued by one checker invocation. -/
structure Page where
  /-- `page.is_visible(selector)` on the form as currently rendered. -/
  visible : String → Bool
  /-- `page.input_value(selector)` for a visible text input. -/
  inputValue : String → String
  /-- Whether the first click on the given dropdown trigger raises. -/
  openClickRaises : String → Bool
  /-- `is_visible(sel, timeout=1000)` with the dropdown open: the probe may
  itself raise (`.error`), else reports the option's selected state. -/
  openProbe : String → Except Unit Bool
  /-- Whether the closing click on the given dropdown trigger raises. -/
  closeClickRaises : String → Bool
  /-- Number of `div[data-cy^='requirement-']` items on the page. -/
  requirementCount : Nat
  /-- Whether requirement item `i` has a pressed yes- or no-button. -/
  requirementAnswered : Nat → Bool

/-- `check_text_field`: a visible field whose current value differs from the
expected one is not satisfied; an invisible field is satisfied. -/
def check_text_field (pg : Page) (selector expected : String) : Bool :=
  if pg.visible selector then pg.inputValue selector == expected else true

/-- `check_gender_selection`: satisfied when neither gender button is
visible; otherwise tests the expected button's `aria-pressed` state
(`expected == 'male'` probes the male button, anything else the female
one). -/
def check_gender_selection (pg : Page) (expected : String) : Bool :=
  if !(pg.visible "button[value='male']" || pg.visible "button[value='female']") then
    true
  else if expected == "male" then
    pg.visible "button[value='male'][aria-pressed='true']"
  else
    pg.visible "button[value='female'][aria-pressed='true']"

/-- The selected-state selector probed in the open availability dropdown:
`div[data-cy='select-item-{abs(expected - 6)}'][aria-selected='true']`. -/
def availability_option_selector (expected : Int) : String :=
  "div[data-cy='select-item-" ++ toString (expected - 6).natAbs
    ++ "'][aria-selected='true']"

/-- The selected-state selector probed in the open work-permit dropdown:
`div[aria-posinset='{expected}'][aria-selected='true']`. -/
def work_permit_option_selector (expected : Int) : String :=
  "div[aria-posinset='" ++ toString expected ++ "'][aria-selected='true']"

/-- `check_availability_selection`: satisfied when the trigger is invisible;
otherwise opens the dropdown, probes the option at index
`abs(expected - 6)`, and clicks the trigger again.  An exception anywhere is
caught and yields `False` — with whatever clicks already happened.  Returns
the result together with the trace of trigger clicks that executed. -/
def check_availability_selection (pg : Page) (expected : Int) :
    Bool × List String :=
  if !pg.visible "#availability-trigger" then (true, [])
  else if pg.openClickRaises "#availability-trigger" then (false, [])
  else
    match pg.openProbe (availability_option_selector expected) with
    | .error _ => (false, ["#availability-trigger"])
    | .ok isSelected =>
      if pg.closeClickRaises "#availability-trigger" then
        (false, ["#availability-trigger"])
      else
        (isSelected, ["#availability-trigger", "#availability-trigger"])

/-- `check_work_permit`: same open/probe/close shape on
`#workPermit-trigger`, probing `div[aria-posinset='{expected}']`. -/
def check_work_permit (pg : Page) (expected : Int) : Bool × List String :=
  if !pg.visible "#workPermit-trigger" then (true, [])
  else if pg.openClickRaises "#workPermit-trigger" then (false, [])
  else
    match pg.openProbe (work_permit_option_selector expected) with
    | .error _ => (false, ["#workPermit-trigger"])
    | .ok isSelected =>
      if pg.closeClickRaises "#workPermit-trigger" then
        (false, ["#workPermit-trigger"])
      else
        (isSelected, ["#workPermit-trigger", "#workPermit-trigger"])

/-- `check_requirements_answered`: satisfied when the requirements container
is invisible; otherwise every requirement item must have a pressed answer. -/
def check_requirements_answered (pg : Page) : Bool :=
  if !pg.visible "div[data-cy='requirements-input']" then true
  else (List.range pg.requirementCount).all pg.requirementAnswered

/-- `check_document_uploaded`: waits for network idle, then tests visibility
of the filename as page text (`text={doc_name}`). -/
def check_document_uploaded (pg : Page) (docName : String) : Bool :=
  pg.visible ("text=" ++ docName)

/-- The expected profile passed to `verify_all_fields` as `expected_data`:
the dict reads with their source defaults (`get(k, "")`, `int(get(k, 0))`,
`int(get(k, 1))`) collapsed into typed fields. -/
structure FormData where
  firstname : String := ""
  lastname : String := ""
  email : String := ""
  phone : String := ""
  zipcode : String := ""
  gender : String := ""
  availability : Int := 0
  work_permit : Int := 1
  deriving Repr, DecidableEq

/-- One entry of `files_to_upload`: a file dict with `type`, `name`,
`bytes`.  `name = ""` models a falsy name; `bytesIsNone` whether the
`bytes` entry is `None`. -/
structure FileSpec where
  ftype : Option String
  name : String
  bytesIsNone : Bool := false
  deriving Repr, DecidableEq

/-- The `(selector, expected value)` pairs of the `base_fields` dict, in
insertion order. -/
def baseFields (d : FormData) : List (String × String) :=
  [("input[name='firstname']", d.firstname),
   ("input[name='lastname']", d.lastname),
   ("input[name='email']", d.email),
   ("input[name='phone']", d.phone),
   ("input[name='zipCode']", d.zipcode)]

/-- The per-file loop shared by `verify_all_fields` and
`wait_for_all_uploads`: raises when a file has a falsy name and `None`
bytes, defaults a `None` type to `"other"` (mutating the dict), and reports
the file as missing when its name is not visible on the page. -/
def verify_files (pg : Page) : List FileSpec → Except String (List FileSpec)
  | [] => .ok []
  | f :: fs =>
    if f.name = "" && f.bytesIsNone then .error "File name or bytes is None"
    else
      let f' : FileSpec := { f with ftype := some (f.ftype.getD "other") }
      match verify_files pg fs with
      | .error e => .error e
      | .ok rest =>
        if check_document_uploaded pg f'.name then .ok rest
        else .ok (f' :: rest)

/-- The text-field section of `verify_all_fields`: a base field's selector
is appended when the field is visible and its value check fails. -/
def text_missing_fields (pg : Page) (d : FormData) : List String :=
  (baseFields d).filterMap fun sv =>
    if pg.visible sv.1 && !check_text_field pg sv.1 sv.2 then some sv.1 else none

/-- The gender section of `verify_all_fields`. -/
def gender_missing_fields (pg : Page) (d : FormData) : List String :=
  if (pg.visible "button[value='male']" || pg.visible "button[value='female']")
      && !check_gender_selection pg d.gender then ["gender"] else []

/-- The availability section of `verify_all_fields`. -/
def availability_missing_fields (pg : Page) (d : FormData) : List String :=
  if pg.visible "#availability-trigger"
      && !(check_availability_selection pg d.availability).1 then
    ["availability"] else []

/-- The work-permit section of `verify_all_fields`. -/
def work_permit_missing_fields (pg : Page) (d : FormData) : List String :=
  if pg.visible "#workPermit-trigger"
      && !(check_work_permit pg d.work_permit).1 then
    ["work_permit"] else []

/-- The requirements section of `verify_all_fields` (it reads no expected
data). -/
def requirements_missing_fields (pg : Page) : List String :=
  if pg.visible "div[data-cy='requirements-input']"
      && !check_requirements_answered pg then
    ["requirements"] else []

/-- `verify_all_fields`: probes each control only behind its visibility
guard, accumulating `missing_fields` in source order (the five text fields,
gender, availability, work permit, requirements), then the expected files. -/
def verify_all_fields (pg : Page) (d : FormData) (files : List FileSpec) :
    Except String (List String × List FileSpec) :=
  match verify_files pg files with
  | .error e => .error e
  | .ok missingFiles =>
    .ok (text_missing_fields pg d ++ gender_missing_fields pg d
           ++ availability_missing_fields pg d
           ++ work_permit_missing_fields pg d
           ++ requirements_missing_fields pg,
         missingFiles)

/-! ## `FormFiller.fill_apply_form` — the convergence loop

Each iteration of the `while current_attempt < max_attempts` loop navigates
to the application page and interacts with the live form.  The outcome of
one iteration as far as control flow is concerned is summarised by an
`AttemptStep`, supplied per attempt number by an oracle for the external
page. -/

/-- Control-flow outcome of one attempt of the fill loop. -/
inductive AttemptStep where
  /-- The `application-expired-vacancy` marker was visible after
  navigation. -/
  | expired
  /-- `check_and_handle_login` returned `False`: `continue`. -/
  | loginFailed
  /-- An exception was raised during the attempt body. -/
  | raised (msg : String)
  /-- The recheck reported no missing fields and no missing files: the
  submit button is clicked and the loop breaks. -/
  | converged
  /-- The recheck still reported missing fields or files: the loop runs
  again. -/
  | stillMissing
  deriving Repr, DecidableEq

deriving instance DecidableEq for Except

/-- Result of `fill_apply_form`: the store after its manager calls, the
number of attempts executed, whether the submit button was clicked, and
whether the call returned normally (`.ok`) or raised (`.error`). -/
structure FillResult where
  store : Store
  attempts : Nat
  submitted : Bool
  outcome : Except String Unit
  deriving Repr, DecidableEq

/-- The expired-vacancy short circuit (lines 599–605 of `form_filler.py`):
`delete_job_offer(job_offer.external_id)` — the string external id passed
into the primary-key delete — then, still only under `if job_offer:`,
`delete_cover_letter(cover_letter.id)` when a letter was found. -/
def expired_cleanup (s : Store) (job : Option JobOffer) (cl : Option CoverLetter) :
    Store :=
  match job with
  | none => s
  | some j =>
    let s1 := (delete_job_offer_str_key s j.external_id).2
    match cl with
    | none => s1
    | some c => (delete_cover_letter s1 c.id).2

/-- The `while current_attempt < max_attempts` loop.  `fuel` is
`max_attempts - current_attempt` at the loop head; running out of fuel is
the loop condition turning false, which exits the loop **normally** — no
exception is raised on that path.  A `raised` attempt re-raises only when
`current_attempt >= max_attempts` (i.e. no fuel remains after it). -/
def fill_loop (world : Nat → AttemptStep) (cleanup : Store → Store) :
    Store → Nat → Nat → FillResult
  | s, 0, current => ⟨s, current, false, .ok ()⟩
  | s, fuel + 1, current =>
    let a := current + 1
    match world a with
    | .expired => ⟨cleanup s, a, false, .ok ()⟩
    | .loginFailed => fill_loop world cleanup s fuel a
    | .raised msg =>
      if fuel = 0 then ⟨s, a, false, .error msg⟩
      else fill_loop world cleanup s fuel a
    | .converged => ⟨s, a, true, .ok ()⟩
    | .stillMissing => fill_loop world cleanup s fuel a

/-- `fill_apply_form(external_id)`: raises when the user has no stored
apply form for `"JobUp"`; raises (`AttributeError` on
`job_offer.job_description`) when no offer matches `external_id`; otherwise
resolves the offer and the `(user, job)` cover letter and runs the
three-attempt loop against the page oracle. -/
def fill_apply_form (s : Store) (user_id : Nat) (external_id : String)
    (world : Nat → AttemptStep) : FillResult :=
  if !has_apply_form s user_id "JobUp" then
    ⟨s, 0, false, .error "No form found for this user."⟩
  else
    match get_job_offer_by_external_id s external_id with
    | none => ⟨s, 0, false, .error "'NoneType' object has no attribute 'job_description'"⟩
    | some job =>
      let cl := get_cover_letter_by_user_and_job s user_id job.id
      fill_loop world (fun st => expired_cleanup st (some job) cl) s 3 0

/-! ## `AutoApply` (`services/job_automation/jobup/auto_apply.py`) -/

/-- External collaborators of one job's processing: whether cover-letter
generation returned a letter, whether PDF rendering succeeded (with its
message), and the page oracle for the form-fill attempts. -/
structure JobOracle where
  genOk : Bool := true
  pdfOk : Bool := true
  pdfMsg : String := ""
  world : Nat → AttemptStep := fun _ => .converged

/-- Per-job outcome captured by `process_single_job` (the fields of
`ApplicationResult` that the pipeline branches on), together with the store
it leaves behind. -/
structure SingleResult where
  status : String
  error : Option String := none
  store : Store
  deriving Repr, DecidableEq

/-- `process_single_job`: generate cover letter → render PDF → fill form →
`add_application(..., "Submitted")`.  A falsy generation or a failed render
short-circuits as `Failed`; a raising `fill_apply_form` is caught as
`Failed`; a `fill_apply_form` that **returns** — for any reason — is
followed unconditionally by the `Submitted` application record and a
`Success` status; an exception from `add_application` is caught by the
outer handler as `Error`. -/
def process_single_job (s : Store) (user_id : Nat) (job : JobOffer)
    (o : JobOracle) : SingleResult :=
  if !o.genOk then
    { status := "Failed", error := some "Cover letter generation failed", store := s }
  else if !o.pdfOk then
    { status := "Failed", error := some ("PDF generation failed: " ++ o.pdfMsg), store := s }
  else
    let fr := fill_apply_form s user_id job.external_id o.world
    match fr.outcome with
    | .error e =>
      { status := "Failed", error := some ("Form filling failed: " ++ e), store := fr.store }
    | .ok _ =>
      match add_application fr.store ⟨user_id, job.id, "Submitted"⟩ with
      | .error e =>
        { status := "Error", error := some ("Error processing job: " ++ e), store := fr.store }
      | .ok (_, s') => { status := "Success", store := s' }

/-- `get_pending_quick_apply_jobs`: all `quick_apply` offers minus those
with an existing application for this user. -/
def get_pending_quick_apply_jobs (s : Store) (user_id : Nat) : List JobOffer :=
  (get_job_offers_by_quick_apply s).filter
    (fun job => (get_application_by_user_and_job s user_id job.id).isNone)

/-- Sequential processing of the selected jobs (the `asyncio.gather` over
semaphore-guarded tasks, modelled in program order of the cooperative
scheduler), threading the store; the oracle is indexed by position. -/
def process_jobs (user_id : Nat) (oracles : Nat → JobOracle) :
    List JobOffer → Store → Nat → List SingleResult × Store
  | [], s, _ => ([], s)
  | job :: rest, s, k =>
    let r := process_single_job s user_id job (oracles k)
    let pr := process_jobs user_id oracles rest r.store (k + 1)
    (r :: pr.1, pr.2)

/-- The summary dict of `process_job_offers`.  `errors` counts results that
are raised exceptions — `process_single_job` catches everything, so
`Error`-status results land in `failed`, not `errors`. -/
structure Summary where
  total : Nat
  successful : Nat
  failed : Nat
  errors : Nat
  deriving Repr, DecidableEq

/-- `process_job_offers(max_applications)`: compute the pending set, cap it,
process, and summarise. -/
def process_job_offers (s : Store) (user_id : Nat) (maxApplications : Option Nat)
    (oracles : Nat → JobOracle) : Summary × List SingleResult × Store :=
  let pending := get_pending_quick_apply_jobs s user_id
  let jobs := match maxApplications with
    | some m => pending.take m
    | none => pending
  if jobs.isEmpty then (⟨0, 0, 0, 0⟩, [], s)
  else
    let pr := process_jobs user_id oracles jobs s 0
    (⟨jobs.length,
      (pr.1.filter (fun r => r.status == "Success")).length,
      (pr.1.filter (fun r => r.status != "Success")).length,
      0⟩,
     pr.1, pr.2)

/-- The count report of `check_and_process_pending_jobs`. -/
structure PendingReport where
  total_quick_apply : Nat
  already_applied : Nat
  pending : Nat
  deriving Repr, DecidableEq

/-- `check_and_process_pending_jobs`: reports
`total_quick_apply = len(all quick-apply offers)`,
`already_applied = total - len(pending)`, `pending = len(pending)` —
computed before processing — then runs `process_job_offers()` when any job
is pending. -/
def check_and_process_pending_jobs (s : Store) (user_id : Nat)
    (oracles : Nat → JobOracle) : PendingReport × Store :=
  let total := (get_job_offers_by_quick_apply s).length
  let pendingJobs := get_pending_quick_apply_jobs s user_id
  let report : PendingReport :=
    { total_quick_apply := total
      already_applied := total - pendingJobs.length
      pending := pendingJobs.length }
  if pendingJobs.isEmpty then (report, s)
  else (report, (process_job_offers s user_id none oracles).2.2)

/-! ## `JobScraper.scrape_page` (`services/job_automation/jobup/scraper.py`)

One scanned result item, after the click navigated the page, is summarised
by the probe outcomes its extractors see.  `""` models both an absent
element and an empty `inner_text` (indistinguishable to the truthiness
tests of the source). -/

/-- Extraction surface of one result item on a listing page. -/
structure SerpItem where
  /-- `page.url` after clicking the item. -/
  url : String
  /-- `inner_text` of `[data-cy='vacancy-description']` (`""` if absent). -/
  primaryDescription : String
  /-- `inner_text` of the `main`/`article`/`.content` fallback block. -/
  mainContentText : String
  job_title : Option String := none
  company_name : Option String := none
  posted_date : Option String := none
  activity_rate : Option String := none
  contract_type : Option String := none
  work_location : Option String := none
  company_info : Option String := none
  company_contact : Option String := none
  company_url : String := "Not specified"
  categories : List String := []
  quick_apply : Bool := false
  deriving Repr, DecidableEq

/-- The characters after the **last** occurrence of `marker` in `text`
(`none` when `marker` does not occur): the semantics of Python's
`text.split(marker)[-1]` guarded by `marker in text`. -/
def afterLastMarker (marker : List Char) : List Char → Option (List Char)
  | [] => none
  | c :: rest =>
    match afterLastMarker marker rest with
    | some r => some r
    | none =>
      if marker.isPrefixOf (c :: rest) then
        some ((c :: rest).drop marker.length)
      else none

/-- `if "jobid=" in page.url: external_id = page.url.split("jobid=")[-1]`:
the text after the last `jobid=` occurrence, `none` when the fragment is
absent. -/
def extract_external_id (url : String) : Option String :=
  (afterLastMarker "jobid=".toList url.toList).map fun l => ⟨l⟩

/-- The description the item loop ends up with: the primary selector's text
when truthy, else the main-content fallback. -/
def extracted_description (it : SerpItem) : String :=
  if it.primaryDescription ≠ "" then it.primaryDescription
  else it.mainContentText

/-- The buffering decision at the end of the item loop
(`if external_id and job_description`): a payload is buffered only when the
parsed external id and the extracted description are both truthy; otherwise
the item contributes nothing and the loop moves on. -/
def scrape_item (it : SerpItem) : Option JobOfferPayload :=
  let externalId := (extract_external_id it.url).getD ""
  let desc := extracted_description it
  if externalId ≠ "" && desc ≠ "" then
    some
      { external_id := externalId
        company_name := it.company_name
        job_title := it.job_title
        job_description := desc
        job_link := it.url
        quick_apply := some it.quick_apply }
  else none

/-- `scrape_page`'s per-item loop over the panels found on one page: the
buffered `job_offers_data` list.  Per-item exceptions are caught with
`continue`, so each item contributes independently. -/
def scrape_page_records (items : List SerpItem) : List JobOfferPayload :=
  items.filterMap scrape_item

/-! ## `KeywordScrapingScheduler` (`keyword_scraping_scheduler.py`)

The `run` loop is given a bounded trace semantics: `fuel` caps the number
of iterations the interpreter unfolds (the source loop is unbounded), and a
cooperative `stop()` delivery is summarised by the cycle number and the
await point inside that cycle at which the flag flips. -/

/-- Externally observable actions of one scheduler cycle. -/
inductive SchedAction where
  | scrape (keyword : String)
  | pendingCheck
  | sleep
  deriving Repr, DecidableEq

/-- The await point during which `stop()` flips `self.running`. -/
inductive StopPhase where
  /-- During `start_scraping_for_keyword` — before the mid-cycle
  `if self.running` guarding the pending-jobs check. -/
  | duringScrape
  /-- During `check_and_process_pending_jobs` — before the pre-sleep
  `if self.running`. -/
  | duringPending
  /-- During the `asyncio.sleep` — before the loop condition re-check. -/
  | duringSleep
  deriving Repr, DecidableEq

/-- One iteration body of `run` starting at the keyword-index wrap: emits
the scrape, then — only if still running — the pending-jobs check, then —
only if still running — the sleep.  Returns the actions and whether
`self.running` survives to the next loop-condition check. -/
def sched_cycle (keyword : String) (stopHere : Option StopPhase) :
    List SchedAction × Bool :=
  match stopHere with
  | none => ([.scrape keyword, .pendingCheck, .sleep], true)
  | some .duringScrape => ([.scrape keyword], false)
  | some .duringPending => ([.scrape keyword, .pendingCheck], false)
  | some .duringSleep => ([.scrape keyword, .pendingCheck, .sleep], false)

/-- The `while self.running` loop of `run`, unfolded for at most `fuel`
iterations.  `stopAt = some (s, ph)` schedules the `stop()` call to arrive
at phase `ph` of the `s`-th iteration from now (the pair counts down by one
per completed iteration); `idx` is `self.current_keyword_index` (wrapped to
0 at the top of the body, incremented after the pending-check guard). -/
def sched_run_aux (keywords : List String) :
    Option (Nat × StopPhase) → Nat → Nat → List SchedAction
  | _, 0, _ => []
  | stopAt, fuel + 1, idx =>
    let idx' := if idx ≥ keywords.length then 0 else idx
    let keyword := keywords.getD idx' ""
    let stopHere := stopAt.bind fun c => if c.1 = 0 then some c.2 else none
    let step := sched_cycle keyword stopHere
    step.1 ++
      (if step.2 then
        sched_run_aux keywords (stopAt.map fun c => (c.1 - 1, c.2)) fuel (idx' + 1)
      else [])

/-- `run()` from its initial state (`running := true`,
`current_keyword_index := 0`), with the stop schedule `stopAt`. -/
def sched_run (keywords : List String) (stopAt : Option (Nat × StopPhase))
    (fuel : Nat) : List SchedAction :=
  sched_run_aux keywords stopAt fuel 0

/-- Occurrences of one action in a scheduler trace. -/
def countAction (a : SchedAction) (trace : List SchedAction) : Nat :=
  (trace.filter (fun x => x == a)).length

/-- Occurrences of any `scrape` action in a scheduler trace. -/
def countScrapes (trace : List SchedAction) : Nat :=
  (trace.filter (fun x => match x with | .scrape _ => true | _ => false)).length

/-! ## Helper notions used by the theorems -/

/-- Number of `Posting` rows carrying a given `external_id`. -/
def countExternal (s : Store) (external_id : String) : Nat :=
  (s.jobOffers.filter (fun o => o.external_id == external_id)).length

theorem find?_ext_none_iff_count_zero (s : Store) (e : String) :
    get_job_offer_by_external_id s e = none ↔ countExternal s e = 0 := by
  simp [get_job_offer_by_external_id, countExternal, List.find?_eq_none,
    List.length_eq_zero, List.filter_eq_nil_iff]

theorem countApplications_pos_iff (s : Store) (u j : Nat) :
    0 < countApplications s u j ↔
      (get_application_by_user_and_job s u j).isSome := by
  simp [countApplications, get_application_by_user_and_job, List.find?_isSome,
    List.length_pos, Ne, List.filter_eq_nil_iff]

/-! ## C10 — `add_job_offer` raises on missing required fields -/

/-- C10: `add_job_offer` raises `ValueError` whenever `external_id`,
`job_description` or `job_link` is falsy, for **every** store state — in
particular before and regardless of any duplicate lookup — and leaves the
store unchanged. -/
theorem add_job_offer_missing_required_raises
    (s : Store) (p : JobOfferPayload)
    (h : p.external_id = "" ∨ p.job_description = "" ∨ p.job_link = "") :
    (∃ msg, add_job_offer s p = .error msg) ∧ add_job_offer_run s p = s := by
  have hm : ∃ f, firstMissingRequired p = some f := by
    unfold firstMissingRequired
    by_cases h1 : p.external_id = ""
    · exact ⟨"external_id", by simp [h1]⟩
    · by_cases h2 : p.job_description = ""
      · exact ⟨"job_description", by simp [h1, h2]⟩
      · have h3 : p.job_link = "" := by tauto
        exact ⟨"job_link", by simp [h1, h2, h3]⟩
  obtain ⟨f, hf⟩ := hm
  refine ⟨⟨"The field " ++ f ++ " is required.", ?_⟩, ?_⟩ <;>
    simp [add_job_offer, add_job_offer_run, hf]

/-- Witness for C10: a payload with an empty `job_description` whose
`external_id` duplicates an existing row still raises, store unchanged. -/
theorem add_job_offer_missing_required_raises_witness :
    (∃ msg,
      add_job_offer
        { jobOffers := [{ id := 1, external_id := "X",
                          job_description := "d", job_link := "l" }],
          nextJobOfferId := 2 }
        { external_id := "X", job_description := "", job_link := "l" }
        = .error msg) ∧
    add_job_offer_run
        { jobOffers := [{ id := 1, external_id := "X",
                          job_description := "d", job_link := "l" }],
          nextJobOfferId := 2 }
        { external_id := "X", job_description := "", job_link := "l" }
        = { jobOffers := [{ id := 1, external_id := "X",
                            job_description := "d", job_link := "l" }],
            nextJobOfferId := 2 } :=
  add_job_offer_missing_required_raises _ _ (Or.inr (Or.inl rfl))

/-! ## C2 — idempotence of `add_job_offer` in `external_id` -/

/-- Counterexample to C2 as stated: a payload whose `external_id` already
exists in the store but whose `job_description` is falsy makes
`add_job_offer` raise `ValueError` instead of returning the existing
record as a no-op. -/
theorem add_job_offer_duplicate_with_missing_field_raises :
    (get_job_offer_by_external_id
        { jobOffers := [{ id := 1, external_id := "X",
                          job_description := "d", job_link := "l" }],
          nextJobOfferId := 2 } "X").isSome = true ∧
    add_job_offer
        { jobOffers := [{ id := 1, external_id := "X",
                          job_description := "d", job_link := "l" }],
          nextJobOfferId := 2 }
        { external_id := "X", job_description := "", job_link := "l" }
      = .error "The field job_description is required." := by
  constructor <;> rfl

theorem find?_eq_head?_filter {α : Type} (q : α → Bool) :
    ∀ l : List α, l.find? q = (l.filter q).head?
  | [] => rfl
  | a :: l => by
    have ih := find?_eq_head?_filter q l
    cases h : q a
    · rw [List.find?_cons_of_neg _ (by simp [h]),
        List.filter_cons_of_neg (by simp [h])]
      exact ih
    · rw [List.find?_cons_of_pos _ (by simp [h]),
        List.filter_cons_of_pos (by simp [h])]
      rfl

/-- C2 (amended): for payloads whose required fields are all present,
`add_job_offer` is idempotent in `external_id`.  When the store holds
exactly one row with the payload's `external_id` (the unique-index
invariant, under which `scalar_one_or_none` returns that row), the call is
a no-op returning the existing record and never an error; when the store
holds none, the call inserts one row and calling again for the same
identifier returns that record unchanged, leaving exactly one row for that
`external_id`. -/
theorem add_job_offer_idempotent_on_valid_payload
    (s : Store) (p : JobOfferPayload)
    (he : p.external_id ≠ "") (hd : p.job_description ≠ "")
    (hl : p.job_link ≠ "") :
    (countExternal s p.external_id = 1 →
        ∃ o, get_job_offer_by_external_id s p.external_id = some o ∧
          add_job_offer s p = .ok (o, s)) ∧
    (countExternal s p.external_id = 0 →
        ∃ o s', add_job_offer s p = .ok (o, s') ∧
          countExternal s' p.external_id = 1 ∧
          add_job_offer s' p = .ok (o, s')) := by
  have hreq : firstMissingRequired p = none := by
    simp [firstMissingRequired, he, hd, hl]
  constructor
  · intro hcount1
    obtain ⟨o, ho⟩ := List.length_eq_one.mp hcount1
    have hfind : get_job_offer_by_external_id s p.external_id = some o := by
      unfold get_job_offer_by_external_id
      rw [find?_eq_head?_filter]
      rw [show s.jobOffers.filter (fun x => x.external_id == p.external_id)
            = [o] from ho]
      rfl
    exact ⟨o, hfind, by simp [add_job_offer, hreq, hfind]⟩
  · intro hcount
    have hnone : get_job_offer_by_external_id s p.external_id = none :=
      (find?_ext_none_iff_count_zero s p.external_id).mpr hcount
    set newOffer : JobOffer :=
      { id := s.nextJobOfferId, external_id := p.external_id,
        company_name := p.company_name, job_title := p.job_title,
        job_description := p.job_description, job_link := p.job_link,
        quick_apply := p.quick_apply } with hoff
    set s2 : Store :=
      { s with jobOffers := s.jobOffers ++ [newOffer]
               nextJobOfferId := s.nextJobOfferId + 1 } with hs2
    have hfound : get_job_offer_by_external_id s2 p.external_id
        = some newOffer := by
      simp only [get_job_offer_by_external_id, hs2, List.find?_append]
      rw [show s.jobOffers.find? (fun o => o.external_id == p.external_id)
            = none from hnone]
      simp [hoff]
    refine ⟨newOffer, s2, ?_, ?_, ?_⟩
    · simp [add_job_offer, hreq, hnone, hs2, hoff]
    · have h0 : (s.jobOffers.filter
          (fun o => o.external_id == p.external_id)).length = 0 := hcount
      simp [countExternal, hs2, List.filter_append, h0, hoff]
    · simp [add_job_offer, hreq, hfound]

/-- Witness for C2 (amended): on a store holding exactly the row with
`external_id "A"`, a valid duplicate payload is a no-op returning that row;
and inserting the fresh identifier into the empty store, then calling
again, leaves exactly one row and returns the same record. -/
theorem add_job_offer_idempotent_on_valid_payload_witness :
    (∃ o, get_job_offer_by_external_id
        { jobOffers := [{ id := 1, external_id := "A",
                          job_description := "d", job_link := "l" }],
          nextJobOfferId := 2 } "A" = some o ∧
      add_job_offer
        { jobOffers := [{ id := 1, external_id := "A",
                          job_description := "d", job_link := "l" }],
          nextJobOfferId := 2 }
        { external_id := "A", job_description := "d", job_link := "l" }
        = .ok (o, { jobOffers := [{ id := 1, external_id := "A",
                                    job_description := "d", job_link := "l" }],
                    nextJobOfferId := 2 })) ∧
    (∃ o s', add_job_offer {} { external_id := "A", job_description := "d",
                                job_link := "l" } = .ok (o, s') ∧
      countExternal s' "A" = 1 ∧
      add_job_offer s' { external_id := "A", job_description := "d",
                         job_link := "l" } = .ok (o, s')) :=
  ⟨(add_job_offer_idempotent_on_valid_payload
      { jobOffers := [{ id := 1, external_id := "A",
                        job_description := "d", job_link := "l" }],
        nextJobOfferId := 2 }
      { external_id := "A", job_description := "d", job_link := "l" }
      (by decide) (by decide) (by decide)).1 (by decide),
   (add_job_offer_idempotent_on_valid_payload {}
      { external_id := "A", job_description := "d", job_link := "l" }
      (by decide) (by decide) (by decide)).2 rfl⟩

/-! ## C9 — buffering decision of `scrape_page` -/

/-- C9: an item is buffered exactly when both the `jobid=`-parsed external
identifier and the extracted description are non-empty; a buffered payload
carries exactly those values; a skipped item contributes nothing while the
remaining items of the page are still processed. -/
theorem scrape_item_buffering (xs ys : List SerpItem) (it : SerpItem) :
    (scrape_item it = none ↔
      ((extract_external_id it.url).getD "" = "" ∨
        extracted_description it = "")) ∧
    (∀ p, scrape_item it = some p →
      p.external_id = (extract_external_id it.url).getD "" ∧
      p.job_description = extracted_description it ∧
      p.external_id ≠ "" ∧ p.job_description ≠ "") ∧
    (scrape_item it = none →
      scrape_page_records (xs ++ it :: ys)
        = scrape_page_records (xs ++ ys)) := by
  refine ⟨?_, ?_, ?_⟩
  · by_cases hE : (extract_external_id it.url).getD "" = "" <;>
      by_cases hD : extracted_description it = "" <;>
      simp [scrape_item, hE, hD]
  · intro p hp
    by_cases hE : (extract_external_id it.url).getD "" = ""
    · simp [scrape_item, hE] at hp
    · by_cases hD : extracted_description it = ""
      · simp [scrape_item, hE, hD] at hp
      · simp [scrape_item, hE, hD] at hp
        subst hp
        simp_all
  · intro hnone
    simp [scrape_page_records, List.filterMap_append, hnone]

/-- Witness for C9: a page with a good item, an item whose URL has no
`jobid=` fragment, and another good item buffers exactly the two good
records. -/
theorem scrape_item_buffering_witness :
    scrape_item { url := "https://www.jobup.ch/fr/emplois/detail/",
                  primaryDescription := "desc",
                  mainContentText := "" } = none ∧
    scrape_page_records
        [{ url := "u?jobid=1", primaryDescription := "a", mainContentText := "" },
         { url := "https://www.jobup.ch/fr/emplois/detail/",
           primaryDescription := "desc", mainContentText := "" },
         { url := "u?jobid=2", primaryDescription := "", mainContentText := "b" }]
      = scrape_page_records
        [{ url := "u?jobid=1", primaryDescription := "a", mainContentText := "" },
         { url := "u?jobid=2", primaryDescription := "", mainContentText := "b" }] := by
  constructor
  · rfl
  · exact (scrape_item_buffering
      [{ url := "u?jobid=1", primaryDescription := "a", mainContentText := "" }]
      [{ url := "u?jobid=2", primaryDescription := "", mainContentText := "b" }]
      { url := "https://www.jobup.ch/fr/emplois/detail/",
        primaryDescription := "desc", mainContentText := "" }).2.2 rfl

/-! ## C5 — count report of `check_and_process_pending_jobs` -/

/-- C5: the report satisfies
`total_quick_apply = already_applied + pending`, `pending` counts exactly
the quick-apply postings with no application row for this user, and every
quick-apply posting with an existing application is excluded from the
pending set. -/
theorem pending_counts_consistent (s : Store) (user_id : Nat)
    (oracles : Nat → JobOracle) :
    ((check_and_process_pending_jobs s user_id oracles).1.total_quick_apply
      = (check_and_process_pending_jobs s user_id oracles).1.already_applied
        + (check_and_process_pending_jobs s user_id oracles).1.pending) ∧
    ((check_and_process_pending_jobs s user_id oracles).1.pending
      = ((get_job_offers_by_quick_apply s).filter
          (fun j => (get_application_by_user_and_job s user_id j.id).isNone)).length) ∧
    (∀ j ∈ get_job_offers_by_quick_apply s,
      (get_application_by_user_and_job s user_id j.id).isSome →
        j ∉ get_pending_quick_apply_jobs s user_id) := by
  have hrep : (check_and_process_pending_jobs s user_id oracles).1
      = { total_quick_apply := (get_job_offers_by_quick_apply s).length
          already_applied := (get_job_offers_by_quick_apply s).length
            - (get_pending_quick_apply_jobs s user_id).length
          pending := (get_pending_quick_apply_jobs s user_id).length } := by
    simp only [check_and_process_pending_jobs]
    split <;> rfl
  have hle : (get_pending_quick_apply_jobs s user_id).length
      ≤ (get_job_offers_by_quick_apply s).length :=
    List.length_filter_le _ _
  refine ⟨?_, ?_, ?_⟩
  · rw [hrep]; dsimp only; omega
  · rw [hrep]; rfl
  · intro j _ happ hmem
    have hnone := (List.mem_filter.mp hmem).2
    simp only [Option.isNone_iff_eq_none] at hnone
    rw [hnone] at happ
    simp at happ

/-- Witness for C5: two quick-apply postings, one already applied to, give
the report `total 2, already 1, pending 1`, and the applied posting is not
pending. -/
theorem pending_counts_consistent_witness :
    ((check_and_process_pending_jobs
        { jobOffers :=
            [{ id := 1, external_id := "A", job_description := "d",
               job_link := "l", quick_apply := some true },
             { id := 2, external_id := "B", job_description := "d",
               job_link := "l", quick_apply := some true }],
          applications := [{ id := 1, user_id := 7, job_id := 1,
                             application_status := "Submitted" }],
          nextJobOfferId := 3, nextApplicationId := 2 }
        7 (fun _ => {})).1.total_quick_apply = 2) ∧
    ((check_and_process_pending_jobs
        { jobOffers :=
            [{ id := 1, external_id := "A", job_description := "d",
               job_link := "l", quick_apply := some true },
             { id := 2, external_id := "B", job_description := "d",
               job_link := "l", quick_apply := some true }],
          applications := [{ id := 1, user_id := 7, job_id := 1,
                             application_status := "Submitted" }],
          nextJobOfferId := 3, nextApplicationId := 2 }
        7 (fun _ => {})).1.pending =
      ((get_job_offers_by_quick_apply
        { jobOffers :=
            [{ id := 1, external_id := "A", job_description := "d",
               job_link := "l", quick_apply := some true },
             { id := 2, external_id := "B", job_description := "d",
               job_link := "l", quick_apply := some true }],
          applications := [{ id := 1, user_id := 7, job_id := 1,
                             application_status := "Submitted" }],
          nextJobOfferId := 3, nextApplicationId := 2 }).filter
          (fun j => (get_application_by_user_and_job
            { jobOffers :=
                [{ id := 1, external_id := "A", job_description := "d",
                   job_link := "l", quick_apply := some true },
                 { id := 2, external_id := "B", job_description := "d",
                   job_link := "l", quick_apply := some true }],
              applications := [{ id := 1, user_id := 7, job_id := 1,
                                 application_status := "Submitted" }],
              nextJobOfferId := 3, nextApplicationId := 2 } 7 j.id).isNone)).length) := by
  have h := pending_counts_consistent
    { jobOffers :=
        [{ id := 1, external_id := "A", job_description := "d",
           job_link := "l", quick_apply := some true },
         { id := 2, external_id := "B", job_description := "d",
           job_link := "l", quick_apply := some true }],
      applications := [{ id := 1, user_id := 7, job_id := 1,
                         application_status := "Submitted" }],
      nextJobOfferId := 3, nextApplicationId := 2 }
    7 (fun _ => {})
  exact ⟨by rw [h.1]; rfl, h.2.1⟩

/-! ## C6 — visibility guards of `verify_all_fields` -/

/-- Where a missing-field entry can come from: each section contributes
only behind its own visibility guard. -/
theorem verify_missing_field_origin (pg : Page) (d : FormData)
    (files : List FileSpec) (mf : List String) (mfl : List FileSpec)
    (hok : verify_all_fields pg d files = .ok (mf, mfl)) :
    ∀ x ∈ mf,
      (pg.visible x = true ∧ x ∈ (baseFields d).map Prod.fst) ∨
      (x = "gender" ∧ (pg.visible "button[value='male']" = true
        ∨ pg.visible "button[value='female']" = true)) ∨
      (x = "availability" ∧ pg.visible "#availability-trigger" = true) ∨
      (x = "work_permit" ∧ pg.visible "#workPermit-trigger" = true) ∨
      (x = "requirements" ∧ pg.visible "div[data-cy='requirements-input']" = true) := by
  have hmf : mf = text_missing_fields pg d ++ gender_missing_fields pg d
      ++ availability_missing_fields pg d ++ work_permit_missing_fields pg d
      ++ requirements_missing_fields pg := by
    unfold verify_all_fields at hok
    cases hvf : verify_files pg files with
    | error e => rw [hvf] at hok; cases hok
    | ok rest =>
      rw [hvf] at hok
      exact (Prod.mk.injEq .. ▸ (Except.ok.injEq _ _ ▸ hok :
        (_, _) = (mf, mfl))).1.symm
  subst hmf
  intro x hx
  simp only [List.mem_append] at hx
  rcases hx with ((((hx | hx) | hx) | hx) | hx)
  · left
    simp only [text_missing_fields, List.mem_filterMap] at hx
    obtain ⟨sv, hsv, heq⟩ := hx
    by_cases hc : pg.visible sv.1 && !check_text_field pg sv.1 sv.2
    · rw [if_pos hc] at heq
      cases heq
      exact ⟨(Bool.and_eq_true .. ▸ hc).1, List.mem_map_of_mem _ hsv⟩
    · rw [if_neg hc] at heq
      cases heq
  · right; left
    unfold gender_missing_fields at hx
    split at hx
    · rename_i hc
      simp only [List.mem_singleton] at hx
      refine ⟨hx, ?_⟩
      have := (Bool.and_eq_true .. ▸ hc).1
      simpa [Bool.or_eq_true] using this
    · cases hx
  · right; right; left
    unfold availability_missing_fields at hx
    split at hx
    · rename_i hc
      simp only [List.mem_singleton] at hx
      exact ⟨hx, (Bool.and_eq_true .. ▸ hc).1⟩
    · cases hx
  · right; right; right; left
    unfold work_permit_missing_fields at hx
    split at hx
    · rename_i hc
      simp only [List.mem_singleton] at hx
      exact ⟨hx, (Bool.and_eq_true .. ▸ hc).1⟩
    · cases hx
  · right; right; right; right
    unfold requirements_missing_fields at hx
    split at hx
    · rename_i hc
      simp only [List.mem_singleton] at hx
      exact ⟨hx, (Bool.and_eq_true .. ▸ hc).1⟩
    · cases hx

/-- C6 (amended): every **field** control the Checker probes — text inputs,
gender toggle, availability dropdown, work-permit dropdown, requirement
prompts — is treated as satisfied when it is not visible on this posting's
form: it never appears in the returned `missing_fields`, regardless of the
expected profile values.  (File-upload sections are not visibility-guarded;
see the counterexample.) -/
theorem invisible_field_controls_satisfied (pg : Page) (d : FormData)
    (files : List FileSpec) (mf : List String) (mfl : List FileSpec)
    (hok : verify_all_fields pg d files = .ok (mf, mfl)) :
    (∀ sel v, (sel, v) ∈ baseFields d → pg.visible sel = false → sel ∉ mf) ∧
    (pg.visible "button[value='male']" = false →
      pg.visible "button[value='female']" = false → "gender" ∉ mf) ∧
    (pg.visible "#availability-trigger" = false → "availability" ∉ mf) ∧
    (pg.visible "#workPermit-trigger" = false → "work_permit" ∉ mf) ∧
    (pg.visible "div[data-cy='requirements-input']" = false →
      "requirements" ∉ mf) := by
  have origin := verify_missing_field_origin pg d files mf mfl hok
  refine ⟨?_, ?_, ?_, ?_, ?_⟩
  · intro sel v hmem hvis hin
    have hsel : sel ∈ (baseFields d).map Prod.fst :=
      List.mem_map_of_mem _ hmem
    rcases origin sel hin with ⟨hv, _⟩ | ⟨he, _⟩ | ⟨he, _⟩ | ⟨he, _⟩ | ⟨he, _⟩
    · rw [hvis] at hv; cases hv
    all_goals (subst he; simp [baseFields] at hsel)
  · intro hm hf hin
    rcases origin _ hin with ⟨_, hmem⟩ | ⟨_, hv | hv⟩ | ⟨he, _⟩ | ⟨he, _⟩ | ⟨he, _⟩
    · simp [baseFields] at hmem
    · rw [hm] at hv; cases hv
    · rw [hf] at hv; cases hv
    all_goals simp at he
  · intro hvis hin
    rcases origin _ hin with ⟨_, hmem⟩ | ⟨he, _⟩ | ⟨_, hv⟩ | ⟨he, _⟩ | ⟨he, _⟩
    · simp [baseFields] at hmem
    · simp at he
    · rw [hvis] at hv; cases hv
    all_goals simp at he
  · intro hvis hin
    rcases origin _ hin with ⟨_, hmem⟩ | ⟨he, _⟩ | ⟨he, _⟩ | ⟨_, hv⟩ | ⟨he, _⟩
    · simp [baseFields] at hmem
    · simp at he
    · simp at he
    · rw [hvis] at hv; cases hv
    · simp at he
  · intro hvis hin
    rcases origin _ hin with ⟨_, hmem⟩ | ⟨he, _⟩ | ⟨he, _⟩ | ⟨he, _⟩ | ⟨_, hv⟩
    · simp [baseFields] at hmem
    · simp at he
    · simp at he
    · simp at he
    · rw [hvis] at hv; cases hv

/-- Witness for C6 (amended): on a form showing only the firstname input
(whose value mismatches), the invisible availability dropdown is not
reported missing. -/
theorem invisible_field_controls_satisfied_witness :
    "availability" ∉ ["input[name='firstname']"] :=
  (invisible_field_controls_satisfied
    { visible := fun sel => sel == "input[name='firstname']"
      inputValue := fun _ => ""
      openClickRaises := fun _ => false
      openProbe := fun _ => .ok false
      closeClickRaises := fun _ => false
      requirementCount := 0
      requirementAnswered := fun _ => false }
    { firstname := "John" } [] ["input[name='firstname']"] []
    (by decide)).2.2.1 (by decide)

/-- Counterexample to C6 as stated: on a form where **no** control is
visible — in particular no file-upload section (`document-section-head-*`)
— an expected file is still reported missing rather than treated as
satisfied, because the file check keys on filename-text visibility only and
never probes the upload section. -/
theorem file_reported_missing_when_section_absent :
    verify_all_fields
        { visible := fun _ => false
          inputValue := fun _ => ""
          openClickRaises := fun _ => false
          openProbe := fun _ => .ok false
          closeClickRaises := fun _ => false
          requirementCount := 0
          requirementAnswered := fun _ => false }
        {} [{ ftype := some "motivation", name := "Lettre_Acme.pdf" }]
      = .ok ([], [{ ftype := some "motivation", name := "Lettre_Acme.pdf" }]) ∧
    (fun (_ : String) => false) "div[data-cy='document-section-head-motivation']"
      = false := by
  constructor <;> rfl

/-! ## C7 — pairing of dropdown open/close clicks -/

/-- C7 (amended): the availability and work-permit checks pair their
open/close clicks on both non-error outcomes (selected or not); but when
the selected-state probe — or the closing click itself — raises after the
dropdown was opened, the exception handler returns `False` with the
dropdown still open (one unpaired click); when the opening click raises,
no click happens at all. -/
theorem dropdown_click_pairing (pg : Page) (v : Int) :
    (pg.visible "#availability-trigger" = false →
      (check_availability_selection pg v).2 = []) ∧
    (∀ b, pg.visible "#availability-trigger" = true →
      pg.openClickRaises "#availability-trigger" = false →
      pg.openProbe (availability_option_selector v) = .ok b →
      pg.closeClickRaises "#availability-trigger" = false →
      check_availability_selection pg v
        = (b, ["#availability-trigger", "#availability-trigger"])) ∧
    (pg.visible "#availability-trigger" = true →
      pg.openClickRaises "#availability-trigger" = false →
      pg.openProbe (availability_option_selector v) = .error () →
      check_availability_selection pg v = (false, ["#availability-trigger"])) ∧
    (pg.visible "#workPermit-trigger" = false →
      (check_work_permit pg v).2 = []) ∧
    (∀ b, pg.visible "#workPermit-trigger" = true →
      pg.openClickRaises "#workPermit-trigger" = false →
      pg.openProbe (work_permit_option_selector v) = .ok b →
      pg.closeClickRaises "#workPermit-trigger" = false →
      check_work_permit pg v
        = (b, ["#workPermit-trigger", "#workPermit-trigger"])) ∧
    (pg.visible "#workPermit-trigger" = true →
      pg.openClickRaises "#workPermit-trigger" = false →
      pg.openProbe (work_permit_option_selector v) = .error () →
      check_work_permit pg v = (false, ["#workPermit-trigger"])) := by
  refine ⟨?_, ?_, ?_, ?_, ?_, ?_⟩
  · intro hvis
    simp [check_availability_selection, hvis]
  · intro b hvis hopen hprobe hclose
    simp [check_availability_selection, hvis, hopen, hprobe, hclose]
  · intro hvis hopen hprobe
    simp [check_availability_selection, hvis, hopen, hprobe]
  · intro hvis
    simp [check_work_permit, hvis]
  · intro b hvis hopen hprobe hclose
    simp [check_work_permit, hvis, hopen, hprobe, hclose]
  · intro hvis hopen hprobe
    simp [check_work_permit, hvis, hopen, hprobe]

/-- Witness for C7 (amended): a clean availability check on a visible
trigger clicks the trigger exactly twice. -/
theorem dropdown_click_pairing_witness :
    check_availability_selection
        { visible := fun sel => sel == "#availability-trigger"
          inputValue := fun _ => ""
          openClickRaises := fun _ => false
          openProbe := fun _ => .ok true
          closeClickRaises := fun _ => false
          requirementCount := 0
          requirementAnswered := fun _ => false } 4
      = (true, ["#availability-trigger", "#availability-trigger"]) :=
  (dropdown_click_pairing
    { visible := fun sel => sel == "#availability-trigger"
      inputValue := fun _ => ""
      openClickRaises := fun _ => false
      openProbe := fun _ => .ok true
      closeClickRaises := fun _ => false
      requirementCount := 0
      requirementAnswered := fun _ => false } 4).2.1 true
    (by decide) rfl rfl rfl

/-- Counterexample to C7 as stated: when the selected-state probe raises
after the availability dropdown was opened, the check returns `False`
having clicked the trigger exactly once — the open click is never paired
with a close click, leaving the dropdown open. -/
theorem availability_check_error_leaves_dropdown_open :
    check_availability_selection
        { visible := fun sel => sel == "#availability-trigger"
          inputValue := fun _ => ""
          openClickRaises := fun _ => false
          openProbe := fun _ => .error ()
          closeClickRaises := fun _ => false
          requirementCount := 0
          requirementAnswered := fun _ => false } 0
      = (false, ["#availability-trigger"]) := by
  rfl

/-! ## C8 — cooperative stop of the keyword scheduler -/

theorem countAction_append (a : SchedAction) (l r : List SchedAction) :
    countAction a (l ++ r) = countAction a l + countAction a r := by
  simp [countAction, List.filter_append]

theorem countScrapes_append (l r : List SchedAction) :
    countScrapes (l ++ r) = countScrapes l + countScrapes r := by
  simp [countScrapes, List.filter_append]

theorem sched_stop_counts_aux (kws : List String) (ph : StopPhase) :
    ∀ s fuel idx : Nat, s < fuel →
      countScrapes (sched_run_aux kws (some (s, ph)) fuel idx) = s + 1 ∧
      countAction .pendingCheck (sched_run_aux kws (some (s, ph)) fuel idx)
          = (if ph = .duringScrape then s else s + 1) ∧
      countAction .sleep (sched_run_aux kws (some (s, ph)) fuel idx)
          = (if ph = .duringSleep then s + 1 else s) := by
  intro s
  induction s with
  | zero =>
    intro fuel idx h
    obtain ⟨f, rfl⟩ : ∃ f, fuel = f + 1 := ⟨fuel - 1, by omega⟩
    cases ph <;>
      simp [sched_run_aux, sched_cycle, countScrapes, countAction]
  | succ n ih =>
    intro fuel idx h
    obtain ⟨f, rfl⟩ : ∃ f, fuel = f + 1 := ⟨fuel - 1, by omega⟩
    by_cases hidx : idx ≥ kws.length
    · have htail := ih f 1 (by omega)
      have hrun : sched_run_aux kws (some (n + 1, ph)) (f + 1) idx
          = [.scrape (kws.getD 0 ""), .pendingCheck, .sleep]
            ++ sched_run_aux kws (some (n, ph)) f 1 := by
        simp [sched_run_aux, sched_cycle, hidx]
      rw [hrun, countScrapes_append, countAction_append, countAction_append,
        htail.1, htail.2.1, htail.2.2]
      refine ⟨?_, ?_, ?_⟩ <;> simp [countScrapes, countAction] <;>
        first
        | omega
        | (split <;> omega)
    · have htail := ih f (idx + 1) (by omega)
      have hrun : sched_run_aux kws (some (n + 1, ph)) (f + 1) idx
          = [.scrape (kws.getD idx ""), .pendingCheck, .sleep]
            ++ sched_run_aux kws (some (n, ph)) f (idx + 1) := by
        simp [sched_run_aux, sched_cycle, hidx]
      rw [hrun, countScrapes_append, countAction_append, countAction_append,
        htail.1, htail.2.1, htail.2.2]
      refine ⟨?_, ?_, ?_⟩ <;> simp [countScrapes, countAction] <;>
        first
        | omega
        | (split <;> omega)

/-- C8 (amended): after `stop()` is requested in cycle `s`, the scheduler
starts no new cycle and never sleeps into one (exactly `s + 1` scrapes
happen, the in-progress scrape always completing, and no sleep follows the
stop) — but the `running` flag is **also** checked mid-cycle: a stop
arriving during the scraping phase skips that very keyword's pending-jobs
check (only `s` pending checks happen instead of `s + 1`), and one
arriving during the pending-jobs check skips only the sleep. -/
theorem sched_stop_behaviour (kws : List String) (s : Nat) (ph : StopPhase)
    (fuel : Nat) (h : s < fuel) :
    countScrapes (sched_run kws (some (s, ph)) fuel) = s + 1 ∧
    countAction .pendingCheck (sched_run kws (some (s, ph)) fuel)
      = (if ph = .duringScrape then s else s + 1) ∧
    countAction .sleep (sched_run kws (some (s, ph)) fuel)
      = (if ph = .duringSleep then s + 1 else s) := by
  have := sched_stop_counts_aux kws ph s fuel 0 h
  simpa [sched_run] using this

/-- Witness for C8 (amended): stop delivered during cycle 1's pending-jobs
check, two keywords, fuel 5 — two scrapes, two pending checks, one sleep. -/
theorem sched_stop_behaviour_witness :
    countScrapes (sched_run ["a", "b"] (some (1, .duringPending)) 5) = 2 ∧
    countAction .pendingCheck
      (sched_run ["a", "b"] (some (1, .duringPending)) 5) = 2 ∧
    countAction .sleep
      (sched_run ["a", "b"] (some (1, .duringPending)) 5) = 1 := by
  have h := sched_stop_behaviour ["a", "b"] 1 .duringPending 5 (by omega)
  exact ⟨h.1, by simpa using h.2.1, by simpa using h.2.2⟩

/-- Counterexample to C8 as stated: a stop arriving during the scraping
phase of the first cycle makes the loop exit right after that scrape — the
pending-jobs check for the current keyword is **skipped**, because the
`running` flag is consulted mid-cycle, not only at the iteration boundary. -/
theorem stop_during_scrape_skips_pending_check :
    sched_run ["a"] (some (0, .duringScrape)) 3 = [.scrape "a"] := by
  rfl

/-! ## C1 — apply deduplication across orchestrator runs -/

theorem delete_job_offer_applications (s : Store) (pk : Nat) :
    (delete_job_offer s pk).2.applications = s.applications := by
  cases h : get_job_offer_by_id s pk <;> simp [delete_job_offer, h]

theorem delete_job_offer_str_key_applications (s : Store) (key : String) :
    (delete_job_offer_str_key s key).2.applications = s.applications := by
  cases h : stringKeyToNat? key <;>
    simp [delete_job_offer_str_key, h, delete_job_offer_applications]

theorem delete_cover_letter_applications (s : Store) (pk : Nat) :
    (delete_cover_letter s pk).2.applications = s.applications := by
  cases h : s.coverLetters.find? (fun c => c.id == pk) <;>
    simp [delete_cover_letter, h]

theorem expired_cleanup_applications (s : Store) (job : Option JobOffer)
    (cl : Option CoverLetter) :
    (expired_cleanup s job cl).applications = s.applications := by
  cases job with
  | none => rfl
  | some j =>
    cases cl with
    | none => simp [expired_cleanup, delete_job_offer_str_key_applications]
    | some c =>
      simp [expired_cleanup, delete_cover_letter_applications,
        delete_job_offer_str_key_applications]

theorem fill_loop_applications (world : Nat → AttemptStep)
    (cleanup : Store → Store)
    (hc : ∀ st, (cleanup st).applications = st.applications) :
    ∀ (fuel : Nat) (s : Store) (current : Nat),
      (fill_loop world cleanup s fuel current).store.applications
        = s.applications := by
  intro fuel
  induction fuel with
  | zero => intro s current; rfl
  | succ f ih =>
    intro s current
    simp only [fill_loop]
    cases world (current + 1) with
    | expired => exact hc s
    | loginFailed => exact ih s (current + 1)
    | raised msg =>
      by_cases hf : f = 0
      · simp [hf]
      · simp [hf]
        exact ih s (current + 1)
    | converged => rfl
    | stillMissing => exact ih s (current + 1)

theorem fill_apply_form_applications (s : Store) (uid : Nat) (ext : String)
    (world : Nat → AttemptStep) :
    (fill_apply_form s uid ext world).store.applications = s.applications := by
  unfold fill_apply_form
  by_cases hform : has_apply_form s uid "JobUp"
  · simp only [hform]
    cases hjob : get_job_offer_by_external_id s ext with
    | none => simp
    | some job =>
      simp only []
      exact fill_loop_applications world _
        (fun st => expired_cleanup_applications st (some job) _) 3 s 0
  · simp [hform]

theorem countApplications_eq_of_applications_eq (s t : Store) (u j : Nat)
    (h : t.applications = s.applications) :
    countApplications t u j = countApplications s u j := by
  simp [countApplications, h]

theorem add_application_ok_shape (s : Store) (p : ApplicationPayload)
    (a : Application) (s' : Store)
    (h : add_application s p = .ok (a, s')) :
    s'.applications = s.applications ++ [a] ∧ a.user_id = p.user_id ∧
      a.job_id = p.job_id := by
  unfold add_application at h
  split_ifs at h <;> cases h <;> exact ⟨rfl, rfl, rfl⟩

theorem process_single_job_countApplications (s : Store) (uid : Nat)
    (job : JobOffer) (o : JobOracle) (u j : Nat) (hne : job.id ≠ j) :
    countApplications (process_single_job s uid job o).store u j
      = countApplications s u j := by
  unfold process_single_job
  by_cases hg : o.genOk
  case neg => simp [hg]
  by_cases hp : o.pdfOk
  case neg => simp [hg, hp]
  simp only [hg, hp, Bool.not_true, Bool.false_eq_true, if_false]
  have hfill := fill_apply_form_applications s uid job.external_id o.world
  cases hout : (fill_apply_form s uid job.external_id o.world).outcome with
  | error e =>
    simp only [hout]
    exact countApplications_eq_of_applications_eq _ _ _ _ hfill
  | ok u' =>
    simp only [hout]
    cases hadd : add_application (fill_apply_form s uid job.external_id o.world).store
        ⟨uid, job.id, "Submitted"⟩ with
    | error e =>
      simp only [hadd]
      exact countApplications_eq_of_applications_eq _ _ _ _ hfill
    | ok pr =>
      obtain ⟨a, s'⟩ := pr
      simp only [hadd]
      obtain ⟨hs', _, haj⟩ := add_application_ok_shape _ _ _ _ hadd
      show countApplications s' u j = countApplications s u j
      have hone : (List.filter (fun x => x.user_id == u && x.job_id == j) [a]) = [] := by
        have : (a.job_id == j) = false := by
          rw [haj]
          exact beq_eq_false_iff_ne.mpr hne
        simp [List.filter, this]
      simp only [countApplications, hs', List.filter_append, hfill, hone]
      simp

theorem process_jobs_countApplications (uid : Nat) (oracles : Nat → JobOracle)
    (u j : Nat) :
    ∀ (jobs : List JobOffer) (s : Store) (k : Nat),
      (∀ jb ∈ jobs, jb.id ≠ j) →
      countApplications (process_jobs uid oracles jobs s k).2 u j
        = countApplications s u j := by
  intro jobs
  induction jobs with
  | nil => intro s k _; rfl
  | cons jb rest ih =>
    intro s k hids
    simp only [process_jobs]
    rw [ih _ (k + 1) (fun x hx => hids x (List.mem_cons_of_mem _ hx))]
    exact process_single_job_countApplications s uid jb (oracles k) u j
      (hids jb (List.mem_cons_self _ _))

theorem pending_job_id_ne (s : Store) (uid j : Nat)
    (hpos : 0 < countApplications s uid j) :
    ∀ jb ∈ get_pending_quick_apply_jobs s uid, jb.id ≠ j := by
  intro jb hmem heq
  have hnone := (List.mem_filter.mp hmem).2
  simp only [Option.isNone_iff_eq_none] at hnone
  have hsome := (countApplications_pos_iff s uid j).mp hpos
  rw [heq] at hnone
  rw [hnone] at hsome
  cases hsome

theorem process_job_offers_countApplications (s : Store) (uid : Nat)
    (maxA : Option Nat) (oracles : Nat → JobOracle) (j : Nat)
    (hpos : 0 < countApplications s uid j) :
    countApplications (process_job_offers s uid maxA oracles).2.2 uid j
      = countApplications s uid j := by
  have hids : ∀ jb ∈ get_pending_quick_apply_jobs s uid, jb.id ≠ j :=
    pending_job_id_ne s uid j hpos
  unfold process_job_offers
  cases maxA with
  | none =>
    by_cases hempty : (get_pending_quick_apply_jobs s uid).isEmpty
    · simp [hempty]
    · simp only [hempty, Bool.false_eq_true, if_false]
      exact process_jobs_countApplications uid oracles uid j _ s 0 hids
  | some m =>
    by_cases hempty : ((get_pending_quick_apply_jobs s uid).take m).isEmpty
    · simp [hempty]
    · simp only [hempty, Bool.false_eq_true, if_false]
      exact process_jobs_countApplications uid oracles uid j _ s 0
        (fun x hx => hids x (List.take_subset m _ hx))

/-- C1: for a `(user, posting)` pair that already has an `ApplicationRecord`
row, running the orchestrator's `process_job_offers` twice in sequence for
that user — with any caps and any external outcomes — never creates a
second row for that posting, and the second run classifies the posting as
not pending: every offer in `get_pending_quick_apply_jobs` after the first
run carries a different posting id. -/
theorem apply_dedup_two_runs (s : Store) (uid j : Nat) (m1 m2 : Option Nat)
    (or1 or2 : Nat → JobOracle)
    (hpos : 0 < countApplications s uid j) :
    countApplications (process_job_offers s uid m1 or1).2.2 uid j
      = countApplications s uid j ∧
    countApplications
        (process_job_offers (process_job_offers s uid m1 or1).2.2
          uid m2 or2).2.2 uid j
      = countApplications s uid j ∧
    ∀ jb ∈ get_pending_quick_apply_jobs (process_job_offers s uid m1 or1).2.2 uid,
      jb.id ≠ j := by
  have h1 := process_job_offers_countApplications s uid m1 or1 j hpos
  have hpos1 : 0 < countApplications (process_job_offers s uid m1 or1).2.2 uid j := by
    rw [h1]; exact hpos
  have h2 := process_job_offers_countApplications _ uid m2 or2 j hpos1
  exact ⟨h1, by rw [h2, h1], pending_job_id_ne _ uid j hpos1⟩

/-- Witness for C1: user 7 already has the single application row for
posting 1 (a quick-apply offer); both orchestrator runs leave exactly one
row, and the posting is not pending after the first run. -/
theorem apply_dedup_two_runs_witness :
    countApplications
        (process_job_offers
          { jobOffers := [{ id := 1, external_id := "A",
                            job_description := "d", job_link := "l",
                            quick_apply := some true }],
            applications := [{ id := 1, user_id := 7, job_id := 1,
                               application_status := "Submitted" }],
            nextJobOfferId := 2, nextApplicationId := 2 }
          7 none (fun _ => {})).2.2 7 1 = 1 ∧
    get_pending_quick_apply_jobs
        (process_job_offers
          { jobOffers := [{ id := 1, external_id := "A",
                            job_description := "d", job_link := "l",
                            quick_apply := some true }],
            applications := [{ id := 1, user_id := 7, job_id := 1,
                               application_status := "Submitted" }],
            nextJobOfferId := 2, nextApplicationId := 2 }
          7 none (fun _ => {})).2.2 7 = [] := by
  constructor
  · have h := apply_dedup_two_runs
      { jobOffers := [{ id := 1, external_id := "A",
                        job_description := "d", job_link := "l",
                        quick_apply := some true }],
        applications := [{ id := 1, user_id := 7, job_id := 1,
                           application_status := "Submitted" }],
        nextJobOfferId := 2, nextApplicationId := 2 }
      7 1 none none (fun _ => {}) (fun _ => {}) (by decide)
    exact h.1
  · decide

/-! ## C3 — expired-vacancy short circuit -/

/-- C3 (code evaluated at the failing input): posting `id 1` with
`external_id "abc123"`, a stored cover letter, an expired marker on the
first attempt.  The run reports `Success`; the posting is **still in the
store** (the delete was keyed by the string external id against the integer
primary key and matched nothing); the cover letter was deleted; and one
`Submitted` `ApplicationRecord` row for `(user 1, posting 1)` **was
created**, because the expired path returns normally and the orchestrator
then records the application. -/
theorem expired_vacancy_keeps_posting_and_records_application :
    (process_single_job
        { jobOffers := [{ id := 1, external_id := "abc123",
                          job_description := "desc", job_link := "link",
                          quick_apply := some true }],
          applications := [], coverLetters := [{ id := 5, user_id := 1, job_id := 1 }],
          applyForms := [{ user_id := 1, site_name := "JobUp" }],
          nextJobOfferId := 2, nextApplicationId := 1 }
        1
        { id := 1, external_id := "abc123", job_description := "desc",
          job_link := "link", quick_apply := some true }
        { world := fun _ => .expired }).status = "Success" ∧
    ({ id := 1, external_id := "abc123", job_description := "desc",
       job_link := "link", quick_apply := some true } : JobOffer) ∈
      (process_single_job
        { jobOffers := [{ id := 1, external_id := "abc123",
                          job_description := "desc", job_link := "link",
                          quick_apply := some true }],
          applications := [], coverLetters := [{ id := 5, user_id := 1, job_id := 1 }],
          applyForms := [{ user_id := 1, site_name := "JobUp" }],
          nextJobOfferId := 2, nextApplicationId := 1 }
        1
        { id := 1, external_id := "abc123", job_description := "desc",
          job_link := "link", quick_apply := some true }
        { world := fun _ => .expired }).store.jobOffers ∧
    (process_single_job
        { jobOffers := [{ id := 1, external_id := "abc123",
                          job_description := "desc", job_link := "link",
                          quick_apply := some true }],
          applications := [], coverLetters := [{ id := 5, user_id := 1, job_id := 1 }],
          applyForms := [{ user_id := 1, site_name := "JobUp" }],
          nextJobOfferId := 2, nextApplicationId := 1 }
        1
        { id := 1, external_id := "abc123", job_description := "desc",
          job_link := "link", quick_apply := some true }
        { world := fun _ => .expired }).store.coverLetters = [] ∧
    countApplications
      (process_single_job
        { jobOffers := [{ id := 1, external_id := "abc123",
                          job_description := "desc", job_link := "link",
                          quick_apply := some true }],
          applications := [], coverLetters := [{ id := 5, user_id := 1, job_id := 1 }],
          applyForms := [{ user_id := 1, site_name := "JobUp" }],
          nextJobOfferId := 2, nextApplicationId := 1 }
        1
        { id := 1, external_id := "abc123", job_description := "desc",
          job_link := "link", quick_apply := some true }
        { world := fun _ => .expired }).store 1 1 = 1 := by
  refine ⟨?_, ?_, ?_, ?_⟩ <;> decide

/-! ## C4 — convergence bound of the fill loop -/

/-- C4 (code evaluated at the failing input): a form whose recheck reports
missing fields on every attempt (and raises no exception).  The loop runs
exactly 3 attempts and stops — but `fill_apply_form` then **returns
normally** instead of raising (its docstring says "Retries up to
max_attempts before raising exception"), so the orchestrator records the
posting as `Success` and writes a `Submitted` `ApplicationRecord`, not the
`Failed` result the specification requires. -/
theorem unsatisfiable_form_three_attempts_then_success :
    (fill_apply_form
        { jobOffers := [{ id := 1, external_id := "Z9",
                          job_description := "d", job_link := "l",
                          quick_apply := some true }],
          applications := [], coverLetters := [],
          applyForms := [{ user_id := 1, site_name := "JobUp" }],
          nextJobOfferId := 2, nextApplicationId := 1 }
        1 "Z9" (fun _ => .stillMissing)).attempts = 3 ∧
    (fill_apply_form
        { jobOffers := [{ id := 1, external_id := "Z9",
                          job_description := "d", job_link := "l",
                          quick_apply := some true }],
          applications := [], coverLetters := [],
          applyForms := [{ user_id := 1, site_name := "JobUp" }],
          nextJobOfferId := 2, nextApplicationId := 1 }
        1 "Z9" (fun _ => .stillMissing)).submitted = false ∧
    (fill_apply_form
        { jobOffers := [{ id := 1, external_id := "Z9",
                          job_description := "d", job_link := "l",
                          quick_apply := some true }],
          applications := [], coverLetters := [],
          applyForms := [{ user_id := 1, site_name := "JobUp" }],
          nextJobOfferId := 2, nextApplicationId := 1 }
        1 "Z9" (fun _ => .stillMissing)).outcome = .ok () ∧
    (process_single_job
        { jobOffers := [{ id := 1, external_id := "Z9",
                          job_description := "d", job_link := "l",
                          quick_apply := some true }],
          applications := [], coverLetters := [],
          applyForms := [{ user_id := 1, site_name := "JobUp" }],
          nextJobOfferId := 2, nextApplicationId := 1 }
        1
        { id := 1, external_id := "Z9", job_description := "d",
          job_link := "l", quick_apply := some true }
        { world := fun _ => .stillMissing }).status = "Success" ∧
    countApplications
      (process_single_job
        { jobOffers := [{ id := 1, external_id := "Z9",
                          job_description := "d", job_link := "l",
                          quick_apply := some true }],
          applications := [], coverLetters := [],
          applyForms := [{ user_id := 1, site_name := "JobUp" }],
          nextJobOfferId := 2, nextApplicationId := 1 }
        1
        { id := 1, external_id := "Z9", job_description := "d",
          job_link := "l", quick_apply := some true }
        { world := fun _ => .stillMissing }).store 1 1 = 1 := by
  refine ⟨?_, ?_, ?_, ?_, ?_⟩ <;> decide

end JobFinder
